import Mathlib

/-!
Verification of the TuxTray core (telemetry sampler, state classifier,
animation scheduler) against its specification.  The Python source in
`src/system_monitor.py` and `src/animation_engine.py` is shallowly embedded:
floats become rationals, mutable object state becomes explicit state passing,
fallible collaborator calls become `Except`/`Option` inputs.
-/

/-- Container for system statistics (`SystemStats` dataclass,
`system_monitor.py` lines 12-18). -/
structure SystemStats where
  cpu_percent : ℚ
  ram_percent : ℚ
  network_kbps : ℚ
  timestamp : ℚ
deriving DecidableEq, Repr

/-- The `'overloaded'` sub-map of the emotion threshold configuration.
Every key may be absent, mirroring Python `dict.get(key, default)`. -/
structure OverloadedConfig where
  cpu_critical : Option ℚ := none
  ram_critical : Option ℚ := none
  network_critical_kbps : Option ℚ := none
  any_critical_threshold : Option ℚ := none
  description : Option String := none
deriving DecidableEq, Repr

/-- The `'stressed'` sub-map of the emotion threshold configuration. -/
structure StressedConfig where
  cpu_high : Option ℚ := none
  ram_high : Option ℚ := none
  network_high_kbps : Option ℚ := none
  description : Option String := none
deriving DecidableEq, Repr

/-- The `'busy'` sub-map of the emotion threshold configuration. -/
structure BusyConfig where
  single_resource_threshold : Option ℚ := none
  description : Option String := none
deriving DecidableEq, Repr

/-- The `'calm'` sub-map of the emotion threshold configuration. -/
structure CalmConfig where
  cpu_max : Option ℚ := none
  ram_max : Option ℚ := none
  network_max_kbps : Option ℚ := none
  description : Option String := none
deriving DecidableEq, Repr

/-- The `'active'` sub-map (only consulted for its description). -/
structure ActiveConfig where
  description : Option String := none
deriving DecidableEq, Repr

/-- The threshold dictionary passed to `determine_animation_state` /
`determine_emotion_state`.  One Python dict carries both the legacy
single-metric keys (`idle`, `walk`, `idle_kbps`, `walk_kbps`) and the
per-emotion sub-maps; absent keys are `none`. -/
structure Thresholds where
  idle : Option ℚ := none
  walk : Option ℚ := none
  idle_kbps : Option ℚ := none
  walk_kbps : Option ℚ := none
  overloaded : Option OverloadedConfig := none
  stressed : Option StressedConfig := none
  busy : Option BusyConfig := none
  calm : Option CalmConfig := none
  active : Option ActiveConfig := none
deriving DecidableEq, Repr

/-- Embedding of `SystemMonitor.determine_emotion_state` (`system_monitor.py` lines
158-212): priority cascade overloaded → stressed → busy → calm → active. -/
def determine_emotion_state (stats : SystemStats) (emotion_thresholds : Thresholds) : String :=
  let cpu := stats.cpu_percent
  let ram := stats.ram_percent
  let network := stats.network_kbps
  let overload_config := emotion_thresholds.overloaded.getD {}
  let any_critical_threshold := overload_config.any_critical_threshold.getD 85
  if cpu ≥ overload_config.cpu_critical.getD 90 ∨
      ram ≥ overload_config.ram_critical.getD 90 ∨
      network ≥ overload_config.network_critical_kbps.getD 2000 ∨
      cpu ≥ any_critical_threshold ∨
      ram ≥ any_critical_threshold then
    "overloaded"
  else
    let stressed_config := emotion_thresholds.stressed.getD {}
    let high_resources : ℕ :=
      (if cpu ≥ stressed_config.cpu_high.getD 70 then 1 else 0) +
      (if ram ≥ stressed_config.ram_high.getD 75 then 1 else 0) +
      (if network ≥ stressed_config.network_high_kbps.getD 800 then 1 else 0)
    if high_resources ≥ 2 then
      "stressed"
    else
      let busy_config := emotion_thresholds.busy.getD {}
      let single_threshold := busy_config.single_resource_threshold.getD 60
      if cpu ≥ single_threshold ∨ ram ≥ single_threshold ∨
          network ≥ single_threshold * 10 then
        "busy"
      else
        let calm_config := emotion_thresholds.calm.getD {}
        if cpu ≤ calm_config.cpu_max.getD 20 ∧
            ram ≤ calm_config.ram_max.getD 30 ∧
            network ≤ calm_config.network_max_kbps.getD 50 then
          "calm"
        else
          "active"

/-- The shared 3-tier comparison at the end of `determine_animation_state`
(`system_monitor.py` lines 150-156), applied to the per-mode `usage`,
`idle_threshold`, `walk_threshold` locals. -/
def legacyTier (usage idle_threshold walk_threshold : ℚ) : String :=
  if usage ≥ walk_threshold then "run"
  else if usage ≥ idle_threshold then "walk"
  else "idle"

/-- Embedding of `SystemMonitor.determine_animation_state` (`system_monitor.py` lines
115-156): dispatch on `mode`, with per-mode defaulted thresholds. -/
def determine_animation_state (stats : SystemStats) (mode : String)
    (thresholds : Thresholds) : String :=
  if mode = "emotion" then
    determine_emotion_state stats thresholds
  else if mode = "cpu" then
    legacyTier stats.cpu_percent (thresholds.idle.getD 30) (thresholds.walk.getD 80)
  else if mode = "ram" then
    legacyTier stats.ram_percent (thresholds.idle.getD 40) (thresholds.walk.getD 85)
  else if mode = "network" then
    legacyTier stats.network_kbps (thresholds.idle_kbps.getD 100) (thresholds.walk_kbps.getD 1000)
  else
    "idle"

/-- The network baseline owned by `SystemMonitor` (`system_monitor.py` lines
26-27): last cumulative (bytes_sent, bytes_recv) pair and its timestamp,
each `None` until a baseline exists. -/
structure NetState where
  last_network_io : Option (ℤ × ℤ)
  last_network_time : Option ℚ
deriving DecidableEq, Repr

/-- Embedding of `SystemMonitor._init_network_baseline` (`system_monitor.py` lines 33-43).
The collaborator read either raises (`Except.error`), returns a falsy value
(`Except.ok none`), or yields cumulative counters; on the first two the
baseline fields stay/become `None`. -/
def init_network_baseline (net_io : Except Unit (Option (ℤ × ℤ))) (t : ℚ) : NetState :=
  match net_io with
  | Except.ok (some io) => ⟨some io, some t⟩
  | Except.ok none => ⟨none, none⟩
  | Except.error _ => ⟨none, none⟩

/-- Embedding of `SystemMonitor.get_network_usage` (`system_monitor.py` lines 69-104) on
the non-raising path: given the current baseline, the counters read from the
collaborator (`none` when `psutil.net_io_counters()` is falsy) and the
current time, return the KB/s rate and the updated baseline. -/
def get_network_usage (st : NetState) (net_io : Option (ℤ × ℤ))
    (current_time : ℚ) : ℚ × NetState :=
  match net_io, st.last_network_io, st.last_network_time with
  | some io, some last_io, some last_time =>
    let bytes_sent : ℚ := io.1 - last_io.1
    let bytes_recv : ℚ := io.2 - last_io.2
    let total_bytes := bytes_sent + bytes_recv
    let time_elapsed := current_time - last_time
    let st' : NetState := ⟨some io, some current_time⟩
    if time_elapsed > 0 then
      (max 0 ((total_bytes / 1024) / time_elapsed), st')
    else
      (0, st')
  | _, _, _ => (0, st)

/-- Embedding of `SystemMonitor.get_cpu_usage` (`system_monitor.py` lines 45-58): the
collaborator either raises or reports a reading; a reading `> 0` refreshes
the cache and the (possibly refreshed) cache is returned.  Result is
(returned value, new cache). -/
def get_cpu_usage (cache : ℚ) (reading : Except Unit ℚ) : ℚ × ℚ :=
  match reading with
  | Except.ok cpu_percent =>
    let cache' := if cpu_percent > 0 then cpu_percent else cache
    (cache', cache')
  | Except.error _ => (cache, cache)

/-- Embedding of `SystemMonitor.get_ram_usage` (`system_monitor.py` lines 60-67). -/
def get_ram_usage (reading : Except Unit ℚ) : ℚ :=
  match reading with
  | Except.ok percent => percent
  | Except.error _ => 0

/-- One entry of the `stressors` list built by
`SystemMonitor._identify_active_stressors` (`system_monitor.py` lines
247-258); the attached rational is the metric value interpolated into the
message string. -/
inductive Stressor where
  | highCPU (value : ℚ)
  | highRAM (value : ℚ)
  | highNetwork (value : ℚ)
deriving DecidableEq, Repr

/-- Embedding of `SystemMonitor._identify_active_stressors` (`system_monitor.py` lines
247-258): fixed cutoffs cpu > 70, ram > 75, network > 800. -/
def identify_active_stressors (stats : SystemStats) : List Stressor :=
  (if stats.cpu_percent > 70 then [Stressor.highCPU stats.cpu_percent] else []) ++
  (if stats.ram_percent > 75 then [Stressor.highRAM stats.ram_percent] else []) ++
  (if stats.network_kbps > 800 then [Stressor.highNetwork stats.network_kbps] else [])

/-- Python `round(x, 1)` modelled over ℚ: round to one decimal place with
ties going to the even multiple (banker's rounding); the double-precision
representation of the argument is abstracted away. -/
def pyRound1 (q : ℚ) : ℚ :=
  let x := q * 10
  let f : ℤ := x.floor
  let r := x - f
  let n : ℤ :=
    if r < 1/2 then f
    else if r > 1/2 then f + 1
    else if f % 2 = 0 then f else f + 1
  (n : ℚ) / 10

/-- The per-resource stress levels of `get_emotion_analysis`
(`system_monitor.py` lines 229-231). -/
def cpu_stress (stats : SystemStats) : ℚ := min 100 stats.cpu_percent

/-- RAM stress level (`system_monitor.py` line 230). -/
def ram_stress (stats : SystemStats) : ℚ := min 100 stats.ram_percent

/-- Network stress level, scaled to 0-100 (`system_monitor.py` line 231). -/
def network_stress (stats : SystemStats) : ℚ := min 100 (stats.network_kbps / 20)

/-- The `overall_stress` local of `get_emotion_analysis`
(`system_monitor.py` line 233). -/
def overall_stress (stats : SystemStats) : ℚ :=
  (cpu_stress stats + ram_stress stats + network_stress stats) / 3

/-- The dictionary returned by `SystemMonitor.get_emotion_analysis`
(`system_monitor.py` lines 235-245). -/
structure EmotionAnalysis where
  emotion : String
  overall_stress : ℚ
  resource_levels_cpu : ℚ
  resource_levels_ram : ℚ
  resource_levels_network : ℚ
  active_stressors : List Stressor
  description : String
deriving DecidableEq, Repr

/-- The description lookup `emotion_thresholds.get(emotion, ...).get('description', ...)` on
the modelled threshold structure (`system_monitor.py` line 244). -/
def emotion_description (t : Thresholds) (emotion : String) : Option String :=
  if emotion = "overloaded" then (t.overloaded.getD {}).description
  else if emotion = "stressed" then (t.stressed.getD {}).description
  else if emotion = "busy" then (t.busy.getD {}).description
  else if emotion = "calm" then (t.calm.getD {}).description
  else if emotion = "active" then (t.active.getD {}).description
  else none

/-- Embedding of `SystemMonitor.get_emotion_analysis` (`system_monitor.py` lines 214-245). -/
def get_emotion_analysis (stats : SystemStats) (emotion_thresholds : Thresholds) :
    EmotionAnalysis :=
  let emotion := determine_emotion_state stats emotion_thresholds
  { emotion := emotion
    overall_stress := pyRound1 (overall_stress stats)
    resource_levels_cpu := pyRound1 (cpu_stress stats)
    resource_levels_ram := pyRound1 (ram_stress stats)
    resource_levels_network := pyRound1 (network_stress stats)
    active_stressors := identify_active_stressors stats
    description := (emotion_description emotion_thresholds emotion).getD
      s!"System in {emotion} state" }

/-- Opaque frame handle: either the empty placeholder `QPixmap()` or a loaded
image, identified abstractly. -/
inductive Pixmap where
  | empty
  | image (id : ℕ)
deriving DecidableEq, Repr

/-- One animation sequence (`Animation.__init__`, `animation_engine.py` lines
19-35).  `frame_duration_ms` is derived from `fps` at construction; times are
integer milliseconds. -/
structure Animation where
  name : String
  frames : List Pixmap
  fps : ℤ
  loop : Bool
  frame_duration_ms : ℤ
  current_frame : ℕ
  last_frame_time : ℤ
deriving DecidableEq, Repr

/-- Embedding of `Animation.__init__` (`animation_engine.py` lines 19-35):
`frame_duration_ms = int(1000 / fps) if fps > 0 else 42`, `current_frame = 0`,
`last_frame_time = 0`. -/
def Animation.init (name : String) (frames : List Pixmap) (fps : ℤ) (loop : Bool) :
    Animation :=
  { name := name
    frames := frames
    fps := fps
    loop := loop
    frame_duration_ms := if fps > 0 then 1000 / fps else 42
    current_frame := 0
    last_frame_time := 0 }

/-- Embedding of `Animation.get_current_frame` (`animation_engine.py` lines 37-41):
empty placeholder when the frame list is empty, else the indexed frame;
`none` models an out-of-bounds `IndexError`. -/
def Animation.get_current_frame (a : Animation) : Option Pixmap :=
  if a.frames.isEmpty then some Pixmap.empty
  else a.frames[a.current_frame]?

/-- Embedding of `Animation.advance_frame` (`animation_engine.py` lines 43-58), with the
current wall-clock time in milliseconds passed in explicitly.  Returns the
updated animation and whether the frame advanced. -/
def Animation.advance_frame (a : Animation) (current_time : ℤ) : Animation × Bool :=
  if current_time - a.last_frame_time ≥ a.frame_duration_ms then
    if a.frames.isEmpty then (a, false)
    else
      ({ a with current_frame := (a.current_frame + 1) % a.frames.length
                last_frame_time := current_time }, true)
  else
    (a, false)

/-- Embedding of `Animation.reset` (`animation_engine.py` lines 60-63). -/
def Animation.reset (a : Animation) (now : ℤ) : Animation :=
  { a with current_frame := 0, last_frame_time := now }

/-- One catalogue operation on an animation sequence: become active again
(`reset`) or receive a render tick (`advance_frame`), at a given time. -/
inductive AnimOp where
  | reset (now : ℤ)
  | advance (now : ℤ)
deriving DecidableEq, Repr

/-- Apply one catalogue operation. -/
def applyOp (a : Animation) : AnimOp → Animation
  | AnimOp.reset now => a.reset now
  | AnimOp.advance now => (a.advance_frame now).1

/-- Apply a whole interleaving of `reset`/`advance_frame` operations. -/
def applyOps (a : Animation) (ops : List AnimOp) : Animation :=
  ops.foldl applyOp a

/-- Association-list lookup standing in for Python dict indexing. -/
def alistGet {α : Type} (l : List (String × α)) (k : String) : Option α :=
  (l.find? (fun p => p.1 = k)).map Prod.snd

/-- Replace the value stored under a key (used because `Animation.reset`
mutates the object held in the catalogue in place). -/
def alistSet {α : Type} (l : List (String × α)) (k : String) (v : α) :
    List (String × α) :=
  l.map (fun p => if p.1 = k then (k, v) else p)

/-- The state of `AnimationEngine` relevant to sequence switching
(`animation_engine.py` lines 72-88): the skin → name → sequence catalogue,
the current skin and animation name, and the active sequence. -/
structure AnimationEngine where
  animations : List (String × List (String × Animation))
  current_skin : String
  current_animation_name : String
  current_animation : Option Animation
deriving DecidableEq, Repr

/-- Embedding of `AnimationEngine.set_animation` (`animation_engine.py` lines 203-231),
with the wall-clock time for `reset` passed explicitly.  Returns the success
flag, the frame emitted through `frame_changed` (if any), and the updated
engine. -/
def set_animation (e : AnimationEngine) (animation_name : String) (now : ℤ) :
    Bool × Option (Option Pixmap) × AnimationEngine :=
  match alistGet e.animations e.current_skin with
  | none => (false, none, e)
  | some skin_animations =>
    match alistGet skin_animations animation_name with
    | some anim =>
      let new_animation := anim.reset now
      (true, some new_animation.get_current_frame,
        { e with
            animations := alistSet e.animations e.current_skin
              (alistSet skin_animations animation_name new_animation)
            current_animation := some new_animation
            current_animation_name := animation_name })
    | none => (false, none, e)

/-- Embedding of `AnimationEngine.get_current_frame` (`animation_engine.py` lines 257-261). -/
def engine_get_current_frame (e : AnimationEngine) : Option Pixmap :=
  match e.current_animation with
  | some a => a.get_current_frame
  | none => some Pixmap.empty

/-- The `overloaded` guard of the cascade (`system_monitor.py` lines 174-182). -/
def overloadedCond (stats : SystemStats) (t : Thresholds) : Prop :=
  let overload_config := t.overloaded.getD {}
  let any_critical_threshold := overload_config.any_critical_threshold.getD 85
  stats.cpu_percent ≥ overload_config.cpu_critical.getD 90 ∨
  stats.ram_percent ≥ overload_config.ram_critical.getD 90 ∨
  stats.network_kbps ≥ overload_config.network_critical_kbps.getD 2000 ∨
  stats.cpu_percent ≥ any_critical_threshold ∨
  stats.ram_percent ≥ any_critical_threshold

/-- The `high_resources` counter (`system_monitor.py` lines 186-193). -/
def high_resources (stats : SystemStats) (t : Thresholds) : ℕ :=
  let stressed_config := t.stressed.getD {}
  (if stats.cpu_percent ≥ stressed_config.cpu_high.getD 70 then 1 else 0) +
  (if stats.ram_percent ≥ stressed_config.ram_high.getD 75 then 1 else 0) +
  (if stats.network_kbps ≥ stressed_config.network_high_kbps.getD 800 then 1 else 0)

/-- The `stressed` guard of the cascade (`system_monitor.py` line 195). -/
def stressedCond (stats : SystemStats) (t : Thresholds) : Prop :=
  high_resources stats t ≥ 2

/-- The `busy` guard of the cascade (`system_monitor.py` lines 199-201). -/
def busyCond (stats : SystemStats) (t : Thresholds) : Prop :=
  let single_threshold := (t.busy.getD {}).single_resource_threshold.getD 60
  stats.cpu_percent ≥ single_threshold ∨ stats.ram_percent ≥ single_threshold ∨
  stats.network_kbps ≥ single_threshold * 10

/-- The `calm` guard of the cascade (`system_monitor.py` lines 204-208). -/
def calmCond (stats : SystemStats) (t : Thresholds) : Prop :=
  let calm_config := t.calm.getD {}
  stats.cpu_percent ≤ calm_config.cpu_max.getD 20 ∧
  stats.ram_percent ≤ calm_config.ram_max.getD 30 ∧
  stats.network_kbps ≤ calm_config.network_max_kbps.getD 50

instance (stats : SystemStats) (t : Thresholds) : Decidable (overloadedCond stats t) := by
  unfold overloadedCond; exact inferInstance

instance (stats : SystemStats) (t : Thresholds) : Decidable (stressedCond stats t) := by
  unfold stressedCond; exact inferInstance

instance (stats : SystemStats) (t : Thresholds) : Decidable (busyCond stats t) := by
  unfold busyCond; exact inferInstance

instance (stats : SystemStats) (t : Thresholds) : Decidable (calmCond stats t) := by
  unfold calmCond; exact inferInstance

/-- The function `determine_emotion_state` is exactly the five-rule priority cascade. -/
lemma determine_emotion_state_cascade (stats : SystemStats) (t : Thresholds) :
    determine_emotion_state stats t =
      if overloadedCond stats t then "overloaded"
      else if stressedCond stats t then "stressed"
      else if busyCond stats t then "busy"
      else if calmCond stats t then "calm"
      else "active" := by
  unfold determine_emotion_state overloadedCond stressedCond busyCond calmCond high_resources
  rfl

/-- C1: composite-mode classification always returns exactly one label from
{calm, active, busy, stressed, overloaded}, and the rules form a strict
priority cascade with first match winning; in particular a sample meeting the
overloaded condition is classified "overloaded" even under a contradictory
configuration in which calm's per-metric bounds also hold. -/
theorem emotion_cascade_first_match (stats : SystemStats) (t : Thresholds) :
    determine_emotion_state stats t ∈ ["calm", "active", "busy", "stressed", "overloaded"] ∧
    (overloadedCond stats t → determine_emotion_state stats t = "overloaded") ∧
    (¬overloadedCond stats t → stressedCond stats t →
      determine_emotion_state stats t = "stressed") ∧
    (¬overloadedCond stats t → ¬stressedCond stats t → busyCond stats t →
      determine_emotion_state stats t = "busy") ∧
    (¬overloadedCond stats t → ¬stressedCond stats t → ¬busyCond stats t →
      calmCond stats t → determine_emotion_state stats t = "calm") ∧
    (¬overloadedCond stats t → ¬stressedCond stats t → ¬busyCond stats t →
      ¬calmCond stats t → determine_emotion_state stats t = "active") := by
  rw [determine_emotion_state_cascade]
  by_cases h1 : overloadedCond stats t <;> by_cases h2 : stressedCond stats t <;>
    by_cases h3 : busyCond stats t <;> by_cases h4 : calmCond stats t <;>
    simp [h1, h2, h3, h4]

/-- A contradictory configuration (overloaded critical at 50, calm bounds at
100) on a sample meeting both: the overloaded rule wins and calm's bounds are
indeed also met. -/
theorem emotion_cascade_first_match_witness :
    overloadedCond ⟨60, 10, 5, 0⟩
      { overloaded := some { cpu_critical := some 50 },
        calm := some { cpu_max := some 100, ram_max := some 100,
                       network_max_kbps := some 100 } } ∧
    calmCond ⟨60, 10, 5, 0⟩
      { overloaded := some { cpu_critical := some 50 },
        calm := some { cpu_max := some 100, ram_max := some 100,
                       network_max_kbps := some 100 } } ∧
    determine_emotion_state ⟨60, 10, 5, 0⟩
      { overloaded := some { cpu_critical := some 50 },
        calm := some { cpu_max := some 100, ram_max := some 100,
                       network_max_kbps := some 100 } } = "overloaded" := by
  refine ⟨?_, ?_, ?_⟩
  · unfold overloadedCond; norm_num
  · unfold calmCond; norm_num
  · exact (emotion_cascade_first_match _ _).2.1 (by unfold overloadedCond; norm_num)

/-- Rank of a legacy label in the order idle < walk < run. -/
def legacyRank (s : String) : ℕ :=
  if s = "run" then 2 else if s = "walk" then 1 else 0

/-- The sample field selected by a legacy mode (`system_monitor.py` lines
132-145). -/
def legacy_usage (stats : SystemStats) (mode : String) : ℚ :=
  if mode = "cpu" then stats.cpu_percent
  else if mode = "ram" then stats.ram_percent
  else stats.network_kbps

/-- The effective `idle_threshold` local for a legacy mode. -/
def legacyIdleThr (mode : String) (t : Thresholds) : ℚ :=
  if mode = "cpu" then t.idle.getD 30
  else if mode = "ram" then t.idle.getD 40
  else t.idle_kbps.getD 100

/-- The effective `walk_threshold` local for a legacy mode. -/
def legacyWalkThr (mode : String) (t : Thresholds) : ℚ :=
  if mode = "cpu" then t.walk.getD 80
  else if mode = "ram" then t.walk.getD 85
  else t.walk_kbps.getD 1000

/-- The 3-tier comparison is monotone in usage, under the rank
idle = 0 < walk = 1 < run = 2. -/
lemma legacyTier_mono (u u' i w : ℚ) (h : u ≤ u') :
    legacyRank (legacyTier u i w) ≤ legacyRank (legacyTier u' i w) := by
  unfold legacyTier
  split_ifs <;> first | decide | (exfalso; linarith)

/-- The 3-tier comparison only produces the three legacy labels. -/
lemma legacyTier_mem (u i w : ℚ) : legacyTier u i w ∈ ["idle", "walk", "run"] := by
  unfold legacyTier
  split_ifs <;> simp

/-- C3: in legacy single-metric mode the classifier is the rule
usage ≥ walk → "run", else usage ≥ idle → "walk", else "idle", applied to the
mode's selected usage and thresholds; it returns exactly one of
{idle, walk, run}; and it is monotone: raising the selected usage while
holding thresholds fixed never moves the result backward in the order
idle < walk < run. -/
theorem legacy_mode_rule_and_monotone (mode : String) (stats stats' : SystemStats)
    (t : Thresholds) (hmode : mode ∈ ["cpu", "ram", "network"]) :
    determine_animation_state stats mode t =
      legacyTier (legacy_usage stats mode) (legacyIdleThr mode t) (legacyWalkThr mode t) ∧
    determine_animation_state stats mode t ∈ ["idle", "walk", "run"] ∧
    (legacy_usage stats mode ≤ legacy_usage stats' mode →
      legacyRank (determine_animation_state stats mode t) ≤
        legacyRank (determine_animation_state stats' mode t)) := by
  have heq : ∀ s : SystemStats, determine_animation_state s mode t =
      legacyTier (legacy_usage s mode) (legacyIdleThr mode t) (legacyWalkThr mode t) := by
    intro s
    have hm : mode = "cpu" ∨ mode = "ram" ∨ mode = "network" := by
      simpa using hmode
    rcases hm with h | h | h <;> subst h <;> rfl
  refine ⟨heq stats, ?_, ?_⟩
  · rw [heq stats]; exact legacyTier_mem _ _ _
  · intro hle
    rw [heq stats, heq stats']
    exact legacyTier_mono _ _ _ _ hle

/-- The legacy rule at the spec's example: cpu mode, usage 50,
thresholds {idle: 30, walk: 80} → "walk"; and monotonicity applied from
usage 50 up to usage 85. -/
theorem legacy_mode_rule_and_monotone_witness :
    "cpu" ∈ ["cpu", "ram", "network"] ∧
    determine_animation_state ⟨50, 0, 0, 0⟩ "cpu"
      { idle := some 30, walk := some 80 } = "walk" ∧
    (50 : ℚ) ≤ 85 ∧
    legacyRank (determine_animation_state ⟨50, 0, 0, 0⟩ "cpu"
        { idle := some 30, walk := some 80 }) ≤
      legacyRank (determine_animation_state ⟨85, 0, 0, 0⟩ "cpu"
        { idle := some 30, walk := some 80 }) := by
  have hm : "cpu" ∈ ["cpu", "ram", "network"] := by simp
  refine ⟨hm, ?_, by norm_num, ?_⟩
  · rw [(legacy_mode_rule_and_monotone "cpu" ⟨50, 0, 0, 0⟩ ⟨50, 0, 0, 0⟩
      { idle := some 30, walk := some 80 } hm).1]
    unfold legacyTier legacy_usage legacyIdleThr legacyWalkThr
    norm_num
  · exact (legacy_mode_rule_and_monotone "cpu" ⟨50, 0, 0, 0⟩ ⟨85, 0, 0, 0⟩
      { idle := some 30, walk := some 80 } hm).2.2
      (by unfold legacy_usage; norm_num)

/-- C10: any mode outside {cpu, ram, network, emotion} classifies as "idle",
whatever the sample and thresholds are. -/
theorem unknown_mode_idle (mode : String) (stats : SystemStats) (t : Thresholds)
    (hmode : mode ∉ ["cpu", "ram", "network", "emotion"]) :
    determine_animation_state stats mode t = "idle" := by
  simp only [List.mem_cons, List.mem_singleton, not_or] at hmode
  obtain ⟨h1, h2, h3, h4⟩ := hmode
  unfold determine_animation_state
  simp [h1, h2, h3, h4]

/-- The unknown mode "gpu" yields "idle" on an arbitrary sample and config. -/
theorem unknown_mode_idle_witness :
    determine_animation_state ⟨99, 99, 9999, 0⟩ "gpu" {} = "idle" :=
  unknown_mode_idle "gpu" ⟨99, 99, 9999, 0⟩ {} (by simp)

/-- C2: the network rate is 0 on the first sample after an initialization
that produced no baseline; for two consecutive samples Δt > 0 apart whose
cumulative counters advance by Δsent and Δrecv, it equals
(Δsent + Δrecv) / 1024 / Δt; and it is never negative. -/
theorem network_rate_delta_formula (r : Except Unit (Option (ℤ × ℤ)))
    (t : ℚ) (io : Option (ℤ × ℤ)) (ct : ℚ) (s0 r0 ds dr : ℤ) (t0 dt : ℚ)
    (st : NetState) :
    ((r = Except.ok none ∨ r = Except.error ()) →
      (get_network_usage (init_network_baseline r t) io ct).1 = 0) ∧
    (0 ≤ ds → 0 ≤ dr → 0 < dt →
      (get_network_usage ⟨some (s0, r0), some t0⟩ (some (s0 + ds, r0 + dr))
          (t0 + dt)).1 = ((ds : ℚ) + (dr : ℚ)) / 1024 / dt) ∧
    0 ≤ (get_network_usage st io ct).1 := by
  refine ⟨?_, ?_, ?_⟩
  · rintro (h | h) <;> subst h <;> cases io <;> rfl
  · intro hds hdr hdt
    have harith : ((s0 + ds : ℤ) : ℚ) - (s0 : ℚ) + (((r0 + dr : ℤ) : ℚ) - (r0 : ℚ)) =
        (ds : ℚ) + (dr : ℚ) := by push_cast; ring
    have hpos : t0 + dt - t0 > 0 := by linarith
    have hnn : (0 : ℚ) ≤ (((ds : ℚ) + (dr : ℚ)) / 1024) / (t0 + dt - t0) := by
      apply div_nonneg
      · apply div_nonneg
        · have h1 : (0 : ℚ) ≤ (ds : ℚ) := by exact_mod_cast hds
          have h2 : (0 : ℚ) ≤ (dr : ℚ) := by exact_mod_cast hdr
          linarith
        · norm_num
      · linarith
    simp only [get_network_usage]
    rw [if_pos hpos, harith, max_eq_right hnn]
    have : t0 + dt - t0 = dt := by ring
    rw [this]
  · unfold get_network_usage
    rcases io with _ | io <;> rcases hio : st.last_network_io with _ | lio <;>
      rcases hit : st.last_network_time with _ | lt <;> simp [hio, hit]
    split_ifs
    · exact le_max_left 0 _
    · exact le_refl 0

/-- C2 at concrete inputs: a failed initialization gives rate 0, and a
baseline of (1000, 2000) at t=10 followed by counters (3048, 4048) at t=12
gives (2048+2048)/1024/2 = 2 KB/s, which is ≥ 0. -/
theorem network_rate_delta_formula_witness :
    (get_network_usage (init_network_baseline (Except.error ()) 7)
        (some (5, 5)) 9).1 = 0 ∧
    (get_network_usage ⟨some (1000, 2000), some 10⟩ (some (3048, 4048)) 12).1 = 2 ∧
    (0 : ℚ) ≤ (get_network_usage ⟨some (1000, 2000), some 10⟩
        (some (3048, 4048)) 12).1 := by
  have h1 := (network_rate_delta_formula (Except.error ()) 7 (some (5, 5)) 9
    1000 2000 2048 2048 10 2 ⟨some (1000, 2000), some 10⟩).1 (Or.inr rfl)
  have h2 := (network_rate_delta_formula (Except.error ()) 7 (some (3048, 4048)) 12
    1000 2000 2048 2048 10 2 ⟨some (1000, 2000), some 10⟩).2.1
    (by norm_num) (by norm_num) (by norm_num)
  have h3 := (network_rate_delta_formula (Except.error ()) 7 (some (3048, 4048)) 12
    1000 2000 2048 2048 10 2 ⟨some (1000, 2000), some 10⟩).2.2
  refine ⟨h1, ?_, h3⟩
  have : ((1000 : ℤ) + 2048, (2000 : ℤ) + 2048) = ((3048 : ℤ), (4048 : ℤ)) := by norm_num
  rw [show ((10 : ℚ) + 2) = 12 by norm_num, this] at h2
  rw [h2]
  norm_num

/-- C6 as stated is false: when no prior baseline exists, freshly obtained
counters do NOT refresh the stored baseline — the function returns early,
leaving both fields `None` instead of storing (5, 7) at time 3. -/
theorem baseline_not_refreshed_without_prior :
    get_network_usage ⟨none, none⟩ (some (5, 7)) 3 = (0, ⟨none, none⟩) ∧
    (get_network_usage ⟨none, none⟩ (some (5, 7)) 3).2 ≠ ⟨some (5, 7), some 3⟩ := by
  refine ⟨rfl, ?_⟩
  simp [get_network_usage]

/-- C6 amended: on every call in which new cumulative counters are obtained
AND a prior baseline exists, the stored baseline is updated to the new
counter pair and timestamp, even when the elapsed time is degenerate (≤ 0),
in which case the rate returned for that call is 0. -/
theorem baseline_refresh_with_prior (p c : ℤ × ℤ) (t0 ct : ℚ) :
    (get_network_usage ⟨some p, some t0⟩ (some c) ct).2 = ⟨some c, some ct⟩ ∧
    (ct - t0 ≤ 0 → (get_network_usage ⟨some p, some t0⟩ (some c) ct).1 = 0) := by
  constructor
  · simp only [get_network_usage]
    split_ifs <;> rfl
  · intro h
    simp only [get_network_usage]
    rw [if_neg (by linarith : ¬(ct - t0 > 0))]

/-- Degenerate elapsed time at concrete inputs: baseline (0,0) at t=5,
counters (9,9) read again at t=5 — the baseline moves to ((9,9), 5) and the
rate is 0. -/
theorem baseline_refresh_with_prior_witness :
    (get_network_usage ⟨some (0, 0), some 5⟩ (some (9, 9)) 5).2 =
      NetState.mk (some (9, 9)) (some 5) ∧
    (get_network_usage ⟨some (0, 0), some 5⟩ (some (9, 9)) 5).1 = 0 :=
  ⟨(baseline_refresh_with_prior (0, 0) (9, 9) 5 5).1,
   (baseline_refresh_with_prior (0, 0) (9, 9) 5 5).2 (by norm_num)⟩

/-- C7: the analysis reports overall stress as (the 1-decimal rounding of)
the mean of min(100, cpu), min(100, ram) and min(100, network/20), and its
active-stressor list comes from the fixed cutoffs cpu > 70, ram > 75 and
network > 800 — both independent of the caller-supplied threshold
configuration. -/
theorem analysis_stress_and_stressors (stats : SystemStats) (t t' : Thresholds) :
    overall_stress stats =
      (min 100 stats.cpu_percent + min 100 stats.ram_percent +
        min 100 (stats.network_kbps / 20)) / 3 ∧
    (get_emotion_analysis stats t).overall_stress = pyRound1 (overall_stress stats) ∧
    (get_emotion_analysis stats t).active_stressors =
      (if stats.cpu_percent > 70 then [Stressor.highCPU stats.cpu_percent] else []) ++
      (if stats.ram_percent > 75 then [Stressor.highRAM stats.ram_percent] else []) ++
      (if stats.network_kbps > 800 then [Stressor.highNetwork stats.network_kbps] else []) ∧
    (get_emotion_analysis stats t).active_stressors =
      (get_emotion_analysis stats t').active_stressors ∧
    (get_emotion_analysis stats t).overall_stress =
      (get_emotion_analysis stats t').overall_stress :=
  ⟨rfl, rfl, rfl, rfl, rfl⟩

/-- C8: sampling never raises — a failing processor-load read returns (and
keeps) the cached value, a failing memory read returns 0, and a reported
processor load of exactly 0 (cold first call) returns the previously cached
reading instead. -/
theorem sampler_degrades_gracefully (cache : ℚ) :
    get_cpu_usage cache (Except.error ()) = (cache, cache) ∧
    get_ram_usage (Except.error ()) = 0 ∧
    get_cpu_usage cache (Except.ok 0) = (cache, cache) := by
  refine ⟨rfl, rfl, ?_⟩
  simp [get_cpu_usage]

/-- C4: with a non-empty frame list, a call before `frame_duration_ms` has
elapsed since `last_frame_time` changes nothing and returns false; a call at
or after that advances `current_frame` by exactly one modulo the frame count
(whatever the `loop` flag is, which is never consulted) and returns true; the
duration is 1000/fps ms, or the fixed fallback 42 when fps ≤ 0. -/
theorem advance_frame_timing (a : Animation) (ct : ℤ) (h : a.frames ≠ []) :
    (ct - a.last_frame_time < a.frame_duration_ms → a.advance_frame ct = (a, false)) ∧
    (a.frame_duration_ms ≤ ct - a.last_frame_time →
      (a.advance_frame ct).1.current_frame = (a.current_frame + 1) % a.frames.length ∧
      (a.advance_frame ct).2 = true) ∧
    (∀ (nm : String) (fr : List Pixmap) (fps : ℤ) (lp : Bool),
      (0 < fps → (Animation.init nm fr fps lp).frame_duration_ms = 1000 / fps) ∧
      (fps ≤ 0 → (Animation.init nm fr fps lp).frame_duration_ms = 42)) := by
  refine ⟨?_, ?_, ?_⟩
  · intro hlt
    unfold Animation.advance_frame
    rw [if_neg (not_le.mpr hlt)]
  · intro hge
    have hne : a.frames.isEmpty = false := by
      rcases hf : a.frames with _ | ⟨x, xs⟩
      · exact absurd hf h
      · rfl
    unfold Animation.advance_frame
    rw [if_pos hge, hne]
    exact ⟨rfl, rfl⟩
  · intro nm fr fps lp
    constructor
    · intro hf
      simp [Animation.init, hf]
    · intro hf
      simp [Animation.init, show ¬(fps > 0) from not_lt.mpr hf]

/-- C4 at concrete inputs: a 2-frame 24 fps sequence (duration 41 ms) is left
untouched by a tick at t = 10, and advanced to frame (0+1) % 2 = 1 by a tick
at t = 41. -/
theorem advance_frame_timing_witness :
    (Animation.init "walk" [Pixmap.image 0, Pixmap.image 1] 24 true).advance_frame 10 =
      (Animation.init "walk" [Pixmap.image 0, Pixmap.image 1] 24 true, false) ∧
    ((Animation.init "walk" [Pixmap.image 0, Pixmap.image 1] 24 true).advance_frame 41).1.current_frame = 1 ∧
    ((Animation.init "walk" [Pixmap.image 0, Pixmap.image 1] 24 true).advance_frame 41).2 = true := by
  have h1 := (advance_frame_timing
    (Animation.init "walk" [Pixmap.image 0, Pixmap.image 1] 24 true) 10 (by decide)).1
    (by decide)
  have h2 := (advance_frame_timing
    (Animation.init "walk" [Pixmap.image 0, Pixmap.image 1] 24 true) 41 (by decide)).2.1
    (by decide)
  exact ⟨h1, h2.1, h2.2⟩

/-- C5: a state name absent from the current skin's catalogue (or a current
skin absent from the catalogue altogether) makes `set_animation` return false
with no emission and the engine — active sequence, frame index, name —
untouched; a name present in the catalogue yields true, the target sequence
reset to frame 0 with the fresh timestamp, and its first frame emitted
through the change notification. -/
theorem set_animation_catalog (e : AnimationEngine) (nm : String) (now : ℤ) :
    (alistGet e.animations e.current_skin = none →
      set_animation e nm now = (false, none, e)) ∧
    (∀ cat, alistGet e.animations e.current_skin = some cat →
      alistGet cat nm = none → set_animation e nm now = (false, none, e)) ∧
    (∀ cat anim, alistGet e.animations e.current_skin = some cat →
      alistGet cat nm = some anim →
      (set_animation e nm now).1 = true ∧
      (set_animation e nm now).2.1 = some (anim.reset now).get_current_frame ∧
      (set_animation e nm now).2.2.current_animation = some (anim.reset now) ∧
      (set_animation e nm now).2.2.current_animation_name = nm ∧
      (anim.reset now).current_frame = 0 ∧
      (anim.reset now).last_frame_time = now) := by
  refine ⟨?_, ?_, ?_⟩
  · intro h
    unfold set_animation
    rw [h]
  · intro cat h1 h2
    unfold set_animation
    simp only [h1, h2]
  · intro cat anim h1 h2
    unfold set_animation
    simp only [h1, h2]
    simp [Animation.reset]

/-- C5 at a concrete one-skin engine: setting "missing" fails and leaves the
engine as it was; setting "idle" succeeds, resets the sequence and emits its
first frame. -/
theorem set_animation_catalog_witness :
    set_animation
      ⟨[("tux", [("idle", Animation.init "idle" [Pixmap.image 3] 24 true)])],
        "tux", "idle", none⟩ "missing" 5 =
      (false, none,
        ⟨[("tux", [("idle", Animation.init "idle" [Pixmap.image 3] 24 true)])],
          "tux", "idle", none⟩) ∧
    (set_animation
      ⟨[("tux", [("idle", Animation.init "idle" [Pixmap.image 3] 24 true)])],
        "tux", "idle", none⟩ "idle" 5).1 = true ∧
    (set_animation
      ⟨[("tux", [("idle", Animation.init "idle" [Pixmap.image 3] 24 true)])],
        "tux", "idle", none⟩ "idle" 5).2.1 =
      some ((Animation.init "idle" [Pixmap.image 3] 24 true).reset 5).get_current_frame := by
  refine ⟨?_, ?_, ?_⟩
  · exact (set_animation_catalog
      ⟨[("tux", [("idle", Animation.init "idle" [Pixmap.image 3] 24 true)])],
        "tux", "idle", none⟩ "missing" 5).2.1
      [("idle", Animation.init "idle" [Pixmap.image 3] 24 true)] rfl rfl
  · exact ((set_animation_catalog
      ⟨[("tux", [("idle", Animation.init "idle" [Pixmap.image 3] 24 true)])],
        "tux", "idle", none⟩ "idle" 5).2.2
      [("idle", Animation.init "idle" [Pixmap.image 3] 24 true)]
      (Animation.init "idle" [Pixmap.image 3] 24 true) rfl rfl).1
  · exact ((set_animation_catalog
      ⟨[("tux", [("idle", Animation.init "idle" [Pixmap.image 3] 24 true)])],
        "tux", "idle", none⟩ "idle" 5).2.2
      [("idle", Animation.init "idle" [Pixmap.image 3] 24 true)]
      (Animation.init "idle" [Pixmap.image 3] 24 true) rfl rfl).2.1

/-- Frame-index invariant of a sequence with frames loaded: the current index
is in bounds. -/
def frameInv (a : Animation) : Prop :=
  a.current_frame < a.frames.length

/-- Folding one operation first is the same as peeling the list head. -/
lemma applyOps_cons (a : Animation) (op : AnimOp) (ops : List AnimOp) :
    applyOps a (op :: ops) = applyOps (applyOp a op) ops := rfl

/-- Neither operation touches the frame list. -/
lemma applyOp_frames (a : Animation) (op : AnimOp) : (applyOp a op).frames = a.frames := by
  cases op with
  | reset now => rfl
  | advance now =>
    simp only [applyOp, Animation.advance_frame]
    split_ifs <;> rfl

/-- One `reset`/`advance_frame` step keeps the index in bounds. -/
lemma applyOp_inv (a : Animation) (op : AnimOp) (hne : a.frames ≠ [])
    (h : frameInv a) : frameInv (applyOp a op) := by
  have hlen : 0 < a.frames.length := List.length_pos.mpr hne
  cases op with
  | reset now =>
    unfold applyOp Animation.reset frameInv
    simpa using hlen
  | advance now =>
    simp only [applyOp, Animation.advance_frame, frameInv]
    split_ifs <;> first | exact h | exact Nat.mod_lt _ hlen

/-- Any interleaving of operations keeps the index in bounds and the frame
list unchanged. -/
lemma applyOps_inv (ops : List AnimOp) (a : Animation) (hne : a.frames ≠ [])
    (h : frameInv a) : frameInv (applyOps a ops) ∧ (applyOps a ops).frames = a.frames := by
  induction ops generalizing a with
  | nil => exact ⟨h, rfl⟩
  | cons op ops ih =>
    have hf := applyOp_frames a op
    have hne' : (applyOp a op).frames ≠ [] := by rw [hf]; exact hne
    have h' := applyOp_inv a op hne h
    have hrec := ih (applyOp a op) hne' h'
    constructor
    · rw [applyOps_cons]
      exact hrec.1
    · rw [applyOps_cons, hrec.2, hf]

/-- An in-bounds index makes the frame lookup succeed. -/
lemma get_current_frame_isSome (a : Animation) (h : frameInv a) :
    a.get_current_frame.isSome = true := by
  unfold Animation.get_current_frame
  split_ifs
  · rfl
  · simp [List.getElem?_eq_getElem h]

/-- C9: the current-frame lookup is total — with no active sequence, or an
active sequence with an empty frame list, it returns the empty placeholder;
and for any sequence built with a non-empty frame list, `current_frame` stays
a valid index through every interleaving of `reset` and `advance_frame`, so
the indexed lookup is always in bounds. -/
theorem frame_lookup_total (e : AnimationEngine) (a : Animation) (nm : String)
    (fr : List Pixmap) (fps : ℤ) (lp : Bool) (ops : List AnimOp) :
    (e.current_animation = none → engine_get_current_frame e = some Pixmap.empty) ∧
    (a.frames = [] → a.get_current_frame = some Pixmap.empty) ∧
    (fr ≠ [] →
      (applyOps (Animation.init nm fr fps lp) ops).current_frame <
        (applyOps (Animation.init nm fr fps lp) ops).frames.length ∧
      ((applyOps (Animation.init nm fr fps lp) ops).get_current_frame).isSome = true) := by
  refine ⟨?_, ?_, ?_⟩
  · intro h
    unfold engine_get_current_frame
    rw [h]
  · intro h
    simp [Animation.get_current_frame, h]
  · intro h
    have hinit : frameInv (Animation.init nm fr fps lp) := by
      unfold frameInv Animation.init
      simpa using List.length_pos.mpr h
    have hmain := applyOps_inv ops (Animation.init nm fr fps lp) h hinit
    exact ⟨hmain.1, get_current_frame_isSome _ hmain.1⟩

/-- C9 at concrete inputs: an idle engine and an empty sequence return the
placeholder, and a 1-frame sequence survives an advance-reset-advance
interleaving with its lookup still succeeding. -/
theorem frame_lookup_total_witness :
    engine_get_current_frame ⟨[], "", "idle", none⟩ = some Pixmap.empty ∧
    (Animation.init "idle" [] 24 true).get_current_frame = some Pixmap.empty ∧
    ((applyOps (Animation.init "run" [Pixmap.image 0] 24 true)
      [AnimOp.advance 50, AnimOp.reset 2, AnimOp.advance 100]).get_current_frame).isSome = true := by
  refine ⟨?_, ?_, ?_⟩
  · exact (frame_lookup_total ⟨[], "", "idle", none⟩
      (Animation.init "idle" [] 24 true) "run" [Pixmap.image 0] 24 true
      [AnimOp.advance 50, AnimOp.reset 2, AnimOp.advance 100]).1 rfl
  · exact (frame_lookup_total ⟨[], "", "idle", none⟩
      (Animation.init "idle" [] 24 true) "run" [Pixmap.image 0] 24 true
      [AnimOp.advance 50, AnimOp.reset 2, AnimOp.advance 100]).2.1 rfl
  · exact ((frame_lookup_total ⟨[], "", "idle", none⟩
      (Animation.init "idle" [] 24 true) "run" [Pixmap.image 0] 24 true
      [AnimOp.advance 50, AnimOp.reset 2, AnimOp.advance 100]).2.2 (by decide)).2
